import Mathlib

/-
  Shallow embedding of the CarButler maintenance engine (src/main.py).

  Conventions:
  - Python ints are modelled as Lean Int (Python integers are unbounded and
    the last-service fields can go negative at construction time).
  - battery_voltage is a Python float used only in order comparisons against
    the two-decimal literals 12.0 and 12.4; every voltage the program ever
    compares is a short decimal, and the IEEE doubles of distinct short
    decimals compare exactly like the corresponding rationals, so voltage is
    modelled as Rat.
  - Interactive re-prompt loops only ever leave the loop with an accepted
    value, so each state-changing operation is modelled as a function of the
    accepted inputs; a rejected manual mileage entry leaves the record
    unchanged (the loop re-prompts).
-/

namespace CarButler

/-- One entry of Vehicle.maintenance_history, the dict appended by
CarButler.schedule_service (src/main.py lines 408-413). The scheduled_date
is kept as the opaque isoformat string. -/
structure ServiceHistoryEntry where
  service : String
  scheduled_date : String
  mileage : Int
  status : String
deriving DecidableEq, Repr

/-- The Vehicle record (src/main.py lines 40-50): identity, odometer state,
battery state, history, and the per-service last-service odometer readings. -/
structure Vehicle where
  make : String
  model : String
  year : Int
  mileage : Int
  vin : String
  battery_voltage : Rat
  maintenance_history : List ServiceHistoryEntry
  last_oil_change : Int
  last_tire_rotation : Int
  last_air_filter : Int
deriving DecidableEq, Repr

/-- MaintenanceSchedule.INTERVALS (src/main.py lines 86-93): map from
service kind to (minimum_interval, maximum_interval) in miles. -/
def INTERVALS (service : String) : Int × Int :=
  if service = "oil_change" then (5000, 7500)
  else if service = "tire_rotation" then (5000, 8000)
  else if service = "air_filter" then (15000, 30000)
  else if service = "brake_inspection" then (20000, 20000)
  else if service = "coolant_flush" then (30000, 30000)
  else if service = "transmission_service" then (30000, 60000)
  else (0, 0)

/-- The oil change block of MaintenanceSchedule.check_maintenance_due
(src/main.py lines 103-113): the items this block appends to due_items. -/
def oil_change_items (vehicle : Vehicle) : List (String × Int × String) :=
  let oil_interval := (INTERVALS "oil_change").2
  let miles_since_oil := vehicle.mileage - vehicle.last_oil_change
  let miles_until_oil := oil_interval - miles_since_oil
  if miles_until_oil ≤ 0 then [("Oil Change", 0, "OVERDUE")]
  else if miles_until_oil ≤ 500 then [("Oil Change", miles_until_oil, "DUE SOON")]
  else if miles_until_oil ≤ 1000 then [("Oil Change", miles_until_oil, "UPCOMING")]
  else []

/-- The tire rotation block of MaintenanceSchedule.check_maintenance_due
(src/main.py lines 115-125): the items this block appends to due_items. -/
def tire_rotation_items (vehicle : Vehicle) : List (String × Int × String) :=
  let tire_interval := (INTERVALS "tire_rotation").2
  let miles_since_tire := vehicle.mileage - vehicle.last_tire_rotation
  let miles_until_tire := tire_interval - miles_since_tire
  if miles_until_tire ≤ 0 then [("Tire Rotation", 0, "OVERDUE")]
  else if miles_until_tire ≤ 500 then [("Tire Rotation", miles_until_tire, "DUE SOON")]
  else if miles_until_tire ≤ 1000 then [("Tire Rotation", miles_until_tire, "UPCOMING")]
  else []

/-- The air filter block of MaintenanceSchedule.check_maintenance_due
(src/main.py lines 127-135): the items this block appends to due_items.
There is no DUE SOON branch for this service in the source. -/
def air_filter_items (vehicle : Vehicle) : List (String × Int × String) :=
  let air_interval := (INTERVALS "air_filter").2
  let miles_since_air := vehicle.mileage - vehicle.last_air_filter
  let miles_until_air := air_interval - miles_since_air
  if miles_until_air ≤ 0 then [("Air Filter", 0, "OVERDUE")]
  else if miles_until_air ≤ 2000 then [("Air Filter", miles_until_air, "UPCOMING")]
  else []

/-- MaintenanceSchedule.check_maintenance_due (src/main.py lines 95-137):
due_items starts empty and the three blocks append their items in source
order (oil change, then tire rotation, then air filter), so the result is
the concatenation of the three blocks. -/
def check_maintenance_due (vehicle : Vehicle) : List (String × Int × String) :=
  oil_change_items vehicle ++ tire_rotation_items vehicle ++ air_filter_items vehicle

/-- The manual branch of CarButler.update_mileage (src/main.py lines 267-276):
the entry loop accepts new_mileage only when it is at least the current
mileage; otherwise it re-prompts, which leaves the record unchanged. -/
def update_mileage_manual (vehicle : Vehicle) (new_mileage : Int) : Vehicle :=
  if new_mileage ≥ vehicle.mileage then { vehicle with mileage := new_mileage }
  else vehicle

/-- The OBD2 branch of CarButler.update_mileage (src/main.py lines 252-265):
the reading and battery voltage are taken from the device and stored verbatim
when the user confirms, with no comparison against the current mileage;
declining leaves the record unchanged. -/
def update_mileage_obd2 (vehicle : Vehicle) (new_mileage : Int) (battery : Rat)
    (confirm : Bool) : Vehicle :=
  if confirm then { vehicle with mileage := new_mileage, battery_voltage := battery }
  else vehicle

/-- The battery display classification of CarButler.check_maintenance
(src/main.py lines 310-316). -/
def battery_status (voltage : Rat) : String :=
  if voltage ≥ 12.4 then "Good"
  else if voltage ≥ 12.0 then "Fair"
  else "Poor"

/-- The low-battery advisory check run at the end of CarButler.update_mileage
(src/main.py lines 282-283). -/
def low_battery_warning (vehicle : Vehicle) : Bool :=
  decide (vehicle.battery_voltage < 12.0)

/-- Outcome of the optional email step of CarButler.schedule_service
(src/main.py lines 383-405): the user may skip it, or the collaborator
send_email call may return success or failure. None of the three branches
touches the vehicle record. -/
inductive EmailOutcome where
  | skipped : EmailOutcome
  | sent : EmailOutcome
  | failed : EmailOutcome
deriving DecidableEq, Repr

/-- CarButler.schedule_service (src/main.py lines 320-414), modelled on the
vehicle record it mutates. When check_maintenance_due is empty the function
returns early with no append. Otherwise the selection loops only exit with a
valid service index (serviceChoice, zero-based here) and a chosen date
(selected_date, kept as the isoformat string); the calendar event id is used
only for display, the email step is best-effort, and exactly one history dict
with status "scheduled" and the current mileage is appended. -/
def schedule_service (vehicle : Vehicle) (serviceChoice : Nat)
    (selected_date : String) (_emailOutcome : EmailOutcome) : Vehicle :=
  let due_items := check_maintenance_due vehicle
  if due_items.isEmpty then vehicle
  else
    let selected_service := (due_items.getD serviceChoice ("", 0, "")).1
    { vehicle with
        maintenance_history := vehicle.maintenance_history ++
          [{ service := selected_service, scheduled_date := selected_date,
             mileage := vehicle.mileage, status := "scheduled" }] }

/-- Repeated scheduling runs: fold schedule_service over a list of
(service choice, date, email outcome) triples. -/
def schedule_service_runs (vehicle : Vehicle)
    (runs : List (Nat × String × EmailOutcome)) : Vehicle :=
  runs.foldl (fun v r => schedule_service v r.1 r.2.1 r.2.2) vehicle

/-- The data-model invariant of spec section 3: the odometer dominates every
last-service reading. -/
def mileageInvariant (vehicle : Vehicle) : Prop :=
  vehicle.last_oil_change ≤ vehicle.mileage ∧
  vehicle.last_tire_rotation ≤ vehicle.mileage ∧
  vehicle.last_air_filter ≤ vehicle.mileage

instance (vehicle : Vehicle) : Decidable (mileageInvariant vehicle) := by
  unfold mileageInvariant
  exact inferInstance

/-- A concrete vehicle matching the spec oil-change scenario: mileage 50000,
last oil change at 42600 (100 miles of oil life remaining); tire rotation and
air filter are fresh enough to contribute nothing. -/
def demoVehicle : Vehicle :=
  { make := "Toyota", model := "Camry", year := 2020, mileage := 50000,
    vin := "MOCK12345", battery_voltage := 12.6, maintenance_history := [],
    last_oil_change := 42600, last_tire_rotation := 44000,
    last_air_filter := 25000 }

/-- A vehicle matching the spec air-filter scenario: mileage 30000 with
last_air_filter 10000 (remaining 10000); oil and tires recent enough to
contribute nothing. -/
def airVehicle : Vehicle :=
  { make := "Ford", model := "Focus", year := 2019, mileage := 30000,
    vin := "MOCK20000", battery_voltage := 12.6, maintenance_history := [],
    last_oil_change := 25000, last_tire_rotation := 25000,
    last_air_filter := 10000 }

/-- A vehicle whose oil change is omitted (1500 miles remaining) while the
tire rotation is due soon (500 miles remaining). -/
def mixedVehicle : Vehicle :=
  { make := "Mazda", model := "3", year := 2021, mileage := 50000,
    vin := "MOCK30000", battery_voltage := 12.6, maintenance_history := [],
    last_oil_change := 44000, last_tire_rotation := 42500,
    last_air_filter := 25000 }

/-- A vehicle with an overdue oil change (2500 miles past the interval). -/
def overdueVehicle : Vehicle :=
  { make := "Subaru", model := "Outback", year := 2017, mileage := 50000,
    vin := "MOCK40000", battery_voltage := 12.6, maintenance_history := [],
    last_oil_change := 40000, last_tire_rotation := 47000,
    last_air_filter := 30000 }

/-- demoVehicle with every field outside the evaluator inputs changed:
identity, battery voltage and history differ, the odometer fields agree. -/
def demoVehicleB : Vehicle :=
  { demoVehicle with
    make := "Honda"
    model := "Civic"
    year := 2018
    vin := "OTHER"
    battery_voltage := 11.0
    maintenance_history :=
      [{ service := "Oil Change", scheduled_date := "2026-01-05",
         mileage := 49000, status := "scheduled" }] }

lemma intervals_oil_max : (INTERVALS "oil_change").2 = 7500 := by decide

lemma intervals_tire_max : (INTERVALS "tire_rotation").2 = 8000 := by decide

lemma intervals_air_max : (INTERVALS "air_filter").2 = 30000 := by decide

lemma oil_items_overdue (v : Vehicle) (h : v.mileage - v.last_oil_change ≥ 7500) :
    oil_change_items v = [("Oil Change", 0, "OVERDUE")] := by
  unfold oil_change_items
  dsimp only
  rw [intervals_oil_max]
  split_ifs <;> first | rfl | omega

lemma oil_items_due_soon (v : Vehicle) (h1 : 7000 ≤ v.mileage - v.last_oil_change)
    (h2 : v.mileage - v.last_oil_change < 7500) :
    oil_change_items v =
      [("Oil Change", 7500 - (v.mileage - v.last_oil_change), "DUE SOON")] := by
  unfold oil_change_items
  dsimp only
  rw [intervals_oil_max]
  split_ifs <;> first | rfl | omega

lemma oil_items_upcoming (v : Vehicle) (h1 : 6500 ≤ v.mileage - v.last_oil_change)
    (h2 : v.mileage - v.last_oil_change < 7000) :
    oil_change_items v =
      [("Oil Change", 7500 - (v.mileage - v.last_oil_change), "UPCOMING")] := by
  unfold oil_change_items
  dsimp only
  rw [intervals_oil_max]
  split_ifs <;> first | rfl | omega

lemma oil_items_none (v : Vehicle) (h : v.mileage - v.last_oil_change < 6500) :
    oil_change_items v = [] := by
  unfold oil_change_items
  dsimp only
  rw [intervals_oil_max]
  split_ifs <;> first | rfl | omega

lemma tire_items_none (v : Vehicle) (h : v.mileage - v.last_tire_rotation < 7000) :
    tire_rotation_items v = [] := by
  unfold tire_rotation_items
  dsimp only
  rw [intervals_tire_max]
  split_ifs <;> first | rfl | omega

lemma air_items_overdue (v : Vehicle) (h : 30000 - (v.mileage - v.last_air_filter) ≤ 0) :
    air_filter_items v = [("Air Filter", 0, "OVERDUE")] := by
  unfold air_filter_items
  dsimp only
  rw [intervals_air_max]
  split_ifs <;> first | rfl | omega

lemma air_items_upcoming (v : Vehicle) (h1 : 0 < 30000 - (v.mileage - v.last_air_filter))
    (h2 : 30000 - (v.mileage - v.last_air_filter) ≤ 2000) :
    air_filter_items v =
      [("Air Filter", 30000 - (v.mileage - v.last_air_filter), "UPCOMING")] := by
  unfold air_filter_items
  dsimp only
  rw [intervals_air_max]
  split_ifs <;> first | rfl | omega

lemma air_items_none (v : Vehicle) (h : 2000 < 30000 - (v.mileage - v.last_air_filter)) :
    air_filter_items v = [] := by
  unfold air_filter_items
  dsimp only
  rw [intervals_air_max]
  split_ifs <;> first | rfl | omega

lemma filter_oil_self (v : Vehicle) :
    (oil_change_items v).filter (fun it => it.1 == "Oil Change") = oil_change_items v := by
  unfold oil_change_items
  dsimp only
  split_ifs <;> simp [List.filter]

lemma filter_tire_self (v : Vehicle) :
    (tire_rotation_items v).filter (fun it => it.1 == "Tire Rotation")
      = tire_rotation_items v := by
  unfold tire_rotation_items
  dsimp only
  split_ifs <;> simp [List.filter]

lemma filter_air_self (v : Vehicle) :
    (air_filter_items v).filter (fun it => it.1 == "Air Filter") = air_filter_items v := by
  unfold air_filter_items
  dsimp only
  split_ifs <;> simp [List.filter]

lemma filter_oil_of_tire (v : Vehicle) :
    (tire_rotation_items v).filter (fun it => it.1 == "Oil Change") = [] := by
  unfold tire_rotation_items
  dsimp only
  split_ifs <;> simp [List.filter]

lemma filter_oil_of_air (v : Vehicle) :
    (air_filter_items v).filter (fun it => it.1 == "Oil Change") = [] := by
  unfold air_filter_items
  dsimp only
  split_ifs <;> simp [List.filter]

lemma filter_tire_of_oil (v : Vehicle) :
    (oil_change_items v).filter (fun it => it.1 == "Tire Rotation") = [] := by
  unfold oil_change_items
  dsimp only
  split_ifs <;> simp [List.filter]

lemma filter_tire_of_air (v : Vehicle) :
    (air_filter_items v).filter (fun it => it.1 == "Tire Rotation") = [] := by
  unfold air_filter_items
  dsimp only
  split_ifs <;> simp [List.filter]

lemma filter_air_of_oil (v : Vehicle) :
    (oil_change_items v).filter (fun it => it.1 == "Air Filter") = [] := by
  unfold oil_change_items
  dsimp only
  split_ifs <;> simp [List.filter]

lemma filter_air_of_tire (v : Vehicle) :
    (tire_rotation_items v).filter (fun it => it.1 == "Air Filter") = [] := by
  unfold tire_rotation_items
  dsimp only
  split_ifs <;> simp [List.filter]

lemma filter_check_oil (v : Vehicle) :
    (check_maintenance_due v).filter (fun it => it.1 == "Oil Change")
      = oil_change_items v := by
  unfold check_maintenance_due
  rw [List.filter_append, List.filter_append, filter_oil_self, filter_oil_of_tire,
    filter_oil_of_air, List.append_nil, List.append_nil]

lemma filter_check_tire (v : Vehicle) :
    (check_maintenance_due v).filter (fun it => it.1 == "Tire Rotation")
      = tire_rotation_items v := by
  unfold check_maintenance_due
  rw [List.filter_append, List.filter_append, filter_tire_self, filter_tire_of_oil,
    filter_tire_of_air, List.append_nil, List.nil_append]

lemma filter_check_air (v : Vehicle) :
    (check_maintenance_due v).filter (fun it => it.1 == "Air Filter")
      = air_filter_items v := by
  unfold check_maintenance_due
  rw [List.filter_append, List.filter_append, filter_air_self, filter_air_of_oil,
    filter_air_of_tire, List.nil_append, List.nil_append]

lemma not_mem_of_filter_empty (v : Vehicle) (name : String)
    (hf : (check_maintenance_due v).filter (fun it => it.1 == name) = []) :
    ∀ it ∈ check_maintenance_due v, it.1 ≠ name := by
  intro it hit heq
  have hmem : it ∈ (check_maintenance_due v).filter (fun it => it.1 == name) := by
    rw [List.mem_filter]
    exact ⟨hit, by simp [heq]⟩
  rw [hf] at hmem
  exact absurd hmem (List.not_mem_nil it)

lemma check_congr (v₁ v₂ : Vehicle) (hm : v₁.mileage = v₂.mileage)
    (ho : v₁.last_oil_change = v₂.last_oil_change)
    (ht : v₁.last_tire_rotation = v₂.last_tire_rotation)
    (ha : v₁.last_air_filter = v₂.last_air_filter) :
    check_maintenance_due v₁ = check_maintenance_due v₂ := by
  unfold check_maintenance_due oil_change_items tire_rotation_items air_filter_items
  dsimp only
  rw [hm, ho, ht, ha]

lemma mem_oil_bounds (v : Vehicle) (it : String × Int × String)
    (h : it ∈ oil_change_items v) :
    (it.2.2 = "OVERDUE" → it.2.1 = 0) ∧ 0 ≤ it.2.1 := by
  unfold oil_change_items at h
  dsimp only at h
  rw [intervals_oil_max] at h
  split_ifs at h with h1 h2 h3 <;> simp_all <;> omega

lemma mem_tire_bounds (v : Vehicle) (it : String × Int × String)
    (h : it ∈ tire_rotation_items v) :
    (it.2.2 = "OVERDUE" → it.2.1 = 0) ∧ 0 ≤ it.2.1 := by
  unfold tire_rotation_items at h
  dsimp only at h
  rw [intervals_tire_max] at h
  split_ifs at h with h1 h2 h3 <;> simp_all <;> omega

lemma mem_air_bounds (v : Vehicle) (it : String × Int × String)
    (h : it ∈ air_filter_items v) :
    (it.2.2 = "OVERDUE" → it.2.1 = 0) ∧ 0 ≤ it.2.1 := by
  unfold air_filter_items at h
  dsimp only at h
  rw [intervals_air_max] at h
  split_ifs at h with h1 h2 <;> simp_all <;> omega

lemma mem_air_status (v : Vehicle) (it : String × Int × String)
    (h : it ∈ air_filter_items v) :
    it.2.2 = "OVERDUE" ∨ it.2.2 = "UPCOMING" := by
  unfold air_filter_items at h
  dsimp only at h
  split_ifs at h <;> simp_all

lemma map_oil_names (v : Vehicle) :
    ((oil_change_items v).map (fun it => it.1)).Sublist ["Oil Change"] := by
  unfold oil_change_items
  dsimp only
  split_ifs <;> simp

lemma map_tire_names (v : Vehicle) :
    ((tire_rotation_items v).map (fun it => it.1)).Sublist ["Tire Rotation"] := by
  unfold tire_rotation_items
  dsimp only
  split_ifs <;> simp

lemma map_air_names (v : Vehicle) :
    ((air_filter_items v).map (fun it => it.1)).Sublist ["Air Filter"] := by
  unfold air_filter_items
  dsimp only
  split_ifs <;> simp

lemma schedule_step_history (v : Vehicle) (c : Nat) (d : String) (e : EmailOutcome)
    (h : check_maintenance_due v ≠ []) :
    (schedule_service v c d e).maintenance_history
      = v.maintenance_history ++
        [{ service := ((check_maintenance_due v).getD c ("", 0, "")).1,
           scheduled_date := d, mileage := v.mileage, status := "scheduled" }] := by
  unfold schedule_service
  dsimp only
  rw [if_neg (by simpa [List.isEmpty_iff] using h)]

lemma schedule_keeps_fields (v : Vehicle) (c : Nat) (d : String) (e : EmailOutcome) :
    (schedule_service v c d e).mileage = v.mileage ∧
    (schedule_service v c d e).last_oil_change = v.last_oil_change ∧
    (schedule_service v c d e).last_tire_rotation = v.last_tire_rotation ∧
    (schedule_service v c d e).last_air_filter = v.last_air_filter := by
  unfold schedule_service
  dsimp only
  split <;> exact ⟨rfl, rfl, rfl, rfl⟩

lemma check_schedule_stable (v : Vehicle) (c : Nat) (d : String) (e : EmailOutcome) :
    check_maintenance_due (schedule_service v c d e) = check_maintenance_due v := by
  obtain ⟨h1, h2, h3, h4⟩ := schedule_keeps_fields v c d e
  exact check_congr _ _ h1 h2 h3 h4

/-- C1: the evaluator classifies oil_change by the band of
miles_since = mileage - last_oil_change: at least 7500 gives OVERDUE; in
[7000, 7500) it gives DUE SOON with remaining miles in (0, 500]; in
[6500, 7000) it gives UPCOMING with remaining miles in (500, 1000]; below
6500 no oil change item is returned. -/
theorem oil_change_bands (v : Vehicle) :
    (v.mileage - v.last_oil_change ≥ 7500 →
      (check_maintenance_due v).filter (fun it => it.1 == "Oil Change") =
        [("Oil Change", 0, "OVERDUE")]) ∧
    (7000 ≤ v.mileage - v.last_oil_change → v.mileage - v.last_oil_change < 7500 →
      (check_maintenance_due v).filter (fun it => it.1 == "Oil Change") =
        [("Oil Change", 7500 - (v.mileage - v.last_oil_change), "DUE SOON")] ∧
      0 < 7500 - (v.mileage - v.last_oil_change) ∧
      7500 - (v.mileage - v.last_oil_change) ≤ 500) ∧
    (6500 ≤ v.mileage - v.last_oil_change → v.mileage - v.last_oil_change < 7000 →
      (check_maintenance_due v).filter (fun it => it.1 == "Oil Change") =
        [("Oil Change", 7500 - (v.mileage - v.last_oil_change), "UPCOMING")] ∧
      500 < 7500 - (v.mileage - v.last_oil_change) ∧
      7500 - (v.mileage - v.last_oil_change) ≤ 1000) ∧
    (v.mileage - v.last_oil_change < 6500 →
      (check_maintenance_due v).filter (fun it => it.1 == "Oil Change") = []) := by
  refine ⟨fun h => ?_, fun h1 h2 => ?_, fun h1 h2 => ?_, fun h => ?_⟩ <;>
    rw [filter_check_oil]
  · exact oil_items_overdue v h
  · exact ⟨oil_items_due_soon v h1 h2, by omega, by omega⟩
  · exact ⟨oil_items_upcoming v h1 h2, by omega, by omega⟩
  · exact oil_items_none v h

/-- C1 witness: the spec scenario mileage 50000, last_oil_change 42600 has
miles_since 7400 and remaining 100, classified DUE SOON. -/
theorem oil_change_bands_witness :
    (check_maintenance_due demoVehicle).filter (fun it => it.1 == "Oil Change") =
      [("Oil Change", 100, "DUE SOON")] ∧
    (0 : Int) < 100 ∧ (100 : Int) ≤ 500 := by
  have h := (oil_change_bands demoVehicle).2.1 (by decide) (by decide)
  exact ⟨by rw [h.1]; decide, by decide, by decide⟩

/-- C4: the air filter service has no DUE SOON tier: with
remaining = 30000 - (mileage - last_air_filter), the evaluator returns an
air filter item classified OVERDUE when remaining is at most 0, UPCOMING
when remaining is in (0, 2000], and no air filter item otherwise. -/
theorem air_filter_bands (v : Vehicle) :
    (∀ it ∈ check_maintenance_due v, it.1 = "Air Filter" → it.2.2 ≠ "DUE SOON") ∧
    (30000 - (v.mileage - v.last_air_filter) ≤ 0 →
      (check_maintenance_due v).filter (fun it => it.1 == "Air Filter") =
        [("Air Filter", 0, "OVERDUE")]) ∧
    (0 < 30000 - (v.mileage - v.last_air_filter) →
        30000 - (v.mileage - v.last_air_filter) ≤ 2000 →
      (check_maintenance_due v).filter (fun it => it.1 == "Air Filter") =
        [("Air Filter", 30000 - (v.mileage - v.last_air_filter), "UPCOMING")]) ∧
    (2000 < 30000 - (v.mileage - v.last_air_filter) →
      (check_maintenance_due v).filter (fun it => it.1 == "Air Filter") = []) := by
  refine ⟨?_, fun h => ?_, fun h1 h2 => ?_, fun h => ?_⟩
  · intro it hit hname
    have hmem : it ∈ (check_maintenance_due v).filter (fun it => it.1 == "Air Filter") := by
      rw [List.mem_filter]
      exact ⟨hit, by simp [hname]⟩
    rw [filter_check_air] at hmem
    rcases mem_air_status v it hmem with hs | hs <;> simp [hs]
  · rw [filter_check_air]
    exact air_items_overdue v h
  · rw [filter_check_air]
    exact air_items_upcoming v h1 h2
  · rw [filter_check_air]
    exact air_items_none v h

/-- C4 witness: the spec scenario mileage 30000, last_air_filter 10000 has
remaining 10000, beyond the 2000-mile upcoming threshold, so no air filter
item is returned. -/
theorem air_filter_bands_witness :
    (check_maintenance_due airVehicle).filter (fun it => it.1 == "Air Filter") = [] :=
  (air_filter_bands airVehicle).2.2.2 (by decide)

/-- C7: the evaluator is pure: it performs no mutation, and its output is a
function of the mileage and last-service fields alone, so two calls on a
record whose mileage and last-service fields are unchanged return identical
lists. -/
theorem evaluator_pure (v₁ v₂ : Vehicle) (hm : v₁.mileage = v₂.mileage)
    (ho : v₁.last_oil_change = v₂.last_oil_change)
    (ht : v₁.last_tire_rotation = v₂.last_tire_rotation)
    (ha : v₁.last_air_filter = v₂.last_air_filter) :
    check_maintenance_due v₁ = check_maintenance_due v₂ :=
  check_congr v₁ v₂ hm ho ht ha

/-- C7 witness: two records agreeing on the odometer fields but differing in
identity, battery voltage and history evaluate to the same list. -/
theorem evaluator_pure_witness :
    check_maintenance_due demoVehicle = check_maintenance_due demoVehicleB :=
  evaluator_pure demoVehicle demoVehicleB rfl rfl rfl rfl

/-- C8: the evaluator output is in the fixed order oil change, tire
rotation, air filter (whichever are present; never sorted by urgency), and a
service whose remaining miles exceeds all of its thresholds contributes no
item at all. -/
theorem evaluator_order (v : Vehicle) :
    ((check_maintenance_due v).map (fun it => it.1)).Sublist
      ["Oil Change", "Tire Rotation", "Air Filter"] ∧
    (1000 < 7500 - (v.mileage - v.last_oil_change) →
      ∀ it ∈ check_maintenance_due v, it.1 ≠ "Oil Change") ∧
    (1000 < 8000 - (v.mileage - v.last_tire_rotation) →
      ∀ it ∈ check_maintenance_due v, it.1 ≠ "Tire Rotation") ∧
    (2000 < 30000 - (v.mileage - v.last_air_filter) →
      ∀ it ∈ check_maintenance_due v, it.1 ≠ "Air Filter") := by
  refine ⟨?_, fun h => ?_, fun h => ?_, fun h => ?_⟩
  · unfold check_maintenance_due
    rw [List.map_append, List.map_append]
    exact (((map_oil_names v).append (map_tire_names v)).append (map_air_names v))
  · refine not_mem_of_filter_empty v "Oil Change" ?_
    rw [filter_check_oil]
    exact oil_items_none v (by omega)
  · refine not_mem_of_filter_empty v "Tire Rotation" ?_
    rw [filter_check_tire]
    exact tire_items_none v (by omega)
  · refine not_mem_of_filter_empty v "Air Filter" ?_
    rw [filter_check_air]
    exact air_items_none v (by omega)

/-- C8 witness: on a vehicle whose oil change is 1500 miles away (omitted)
and whose tire rotation is due soon, the output names follow the fixed
order, and the due-soon tire item is not an oil change item. -/
theorem evaluator_order_witness :
    ((check_maintenance_due mixedVehicle).map (fun it => it.1)).Sublist
      ["Oil Change", "Tire Rotation", "Air Filter"] ∧
    ("Tire Rotation", (500 : Int), "DUE SOON").1 ≠ "Oil Change" :=
  ⟨(evaluator_order mixedVehicle).1,
   (evaluator_order mixedVehicle).2.1 (by decide)
     ("Tire Rotation", 500, "DUE SOON") (by decide)⟩

/-- C10: when the evaluator classifies an item as OVERDUE the miles value in
the returned tuple is exactly 0, never the possibly negative computed
remaining miles; consequently every miles value in the output is
non-negative. -/
theorem overdue_reports_zero (v : Vehicle) (it : String × Int × String)
    (h : it ∈ check_maintenance_due v) :
    (it.2.2 = "OVERDUE" → it.2.1 = 0) ∧ 0 ≤ it.2.1 := by
  unfold check_maintenance_due at h
  rcases List.mem_append.mp h with h1 | h1
  · rcases List.mem_append.mp h1 with h2 | h2
    · exact mem_oil_bounds v it h2
    · exact mem_tire_bounds v it h2
  · exact mem_air_bounds v it h1

/-- C10 witness: the overdue oil change item of a vehicle 2500 miles past
the interval carries miles value 0, not -2500. -/
theorem overdue_reports_zero_witness :
    ("Oil Change", (0 : Int), "OVERDUE") ∈ check_maintenance_due overdueVehicle ∧
    (("OVERDUE" : String) = "OVERDUE" → (0 : Int) = 0) ∧ (0 : Int) ≤ 0 :=
  ⟨by decide,
   overdue_reports_zero overdueVehicle ("Oil Change", 0, "OVERDUE") (by decide)⟩

/-- C3 counterexample: the claim says every accepted mileage update (manual
entry or OBD2 reading) leaves the mileage at least its previous value. On
demoVehicle (mileage 50000) an accepted OBD2 reading of 1000 is stored
verbatim, decreasing the mileage: the OBD2 branch never compares the reading
against the current mileage. -/
theorem obd2_update_decreases_mileage :
    (update_mileage_obd2 demoVehicle 1000 12.5 true).mileage
      < demoVehicle.mileage := by
  decide

/-- C3 amended: mileage monotonicity is enforced only on the manual entry
path, whose loop rejects any entry below the current mileage; the OBD2 path
stores any confirmed reading verbatim and leaves the record untouched when
the reading is declined. -/
theorem mileage_update_boundary (v : Vehicle) (n m : Int) (b : Rat) :
    v.mileage ≤ (update_mileage_manual v n).mileage ∧
    (update_mileage_obd2 v m b true).mileage = m ∧
    (update_mileage_obd2 v m b false).mileage = v.mileage := by
  refine ⟨?_, rfl, rfl⟩
  unfold update_mileage_manual
  split_ifs with h
  · exact h
  · exact le_refl v.mileage

/-- C2 counterexample: the claim says every accepted mileage update preserves
the invariant mileage ≥ each last-service reading. demoVehicle satisfies the
invariant, yet the accepted OBD2 update to 1000 miles drops the mileage below
its last-service readings, breaking the invariant. -/
theorem obd2_update_breaks_invariant :
    mileageInvariant demoVehicle ∧
    ¬ mileageInvariant (update_mileage_obd2 demoVehicle 1000 12.5 true) := by
  decide

/-- C2 amended: the invariant mileage ≥ each last-service reading is
preserved by every accepted manual mileage update (which cannot decrease the
mileage) and by every scheduler append (which touches only the history); an
accepted OBD2 update can violate it because the reading is stored without
validation. -/
theorem invariant_preserved_by_manual_and_schedule (v : Vehicle)
    (h : mileageInvariant v) (n : Int) (c : Nat) (d : String) (e : EmailOutcome) :
    mileageInvariant (update_mileage_manual v n) ∧
    mileageInvariant (schedule_service v c d e) := by
  obtain ⟨h1, h2, h3⟩ := h
  constructor
  · unfold update_mileage_manual
    split_ifs with hn
    · exact ⟨by dsimp only; omega, by dsimp only; omega, by dsimp only; omega⟩
    · exact ⟨h1, h2, h3⟩
  · obtain ⟨e1, e2, e3, e4⟩ := schedule_keeps_fields v c d e
    exact ⟨by rw [e1, e2]; exact h1, by rw [e1, e3]; exact h2, by rw [e1, e4]; exact h3⟩

/-- C2 witness: on demoVehicle the invariant survives a manual update to
60000 miles and a scheduler append. -/
theorem invariant_preserved_witness :
    mileageInvariant (update_mileage_manual demoVehicle 60000) ∧
    mileageInvariant (schedule_service demoVehicle 0 "2026-10-14" EmailOutcome.sent) :=
  invariant_preserved_by_manual_and_schedule demoVehicle (by decide) 60000 0
    "2026-10-14" EmailOutcome.sent

/-- C5: the scheduler is append-only: N scheduling runs on a vehicle with a
non-empty due list grow the history by exactly N entries and leave every
previously present entry unchanged at its original position. -/
theorem schedule_append_only (v : Vehicle)
    (runs : List (Nat × String × EmailOutcome))
    (h : check_maintenance_due v ≠ []) :
    (schedule_service_runs v runs).maintenance_history.length
      = v.maintenance_history.length + runs.length ∧
    (schedule_service_runs v runs).maintenance_history.take
        v.maintenance_history.length
      = v.maintenance_history := by
  induction runs generalizing v with
  | nil =>
    exact ⟨rfl, List.take_length v.maintenance_history⟩
  | cons r rs ih =>
    have hstep := schedule_step_history v r.1 r.2.1 r.2.2 h
    have hlen1 : (schedule_service v r.1 r.2.1 r.2.2).maintenance_history.length
        = v.maintenance_history.length + 1 := by
      rw [hstep, List.length_append, List.length_singleton]
    have hne : check_maintenance_due (schedule_service v r.1 r.2.1 r.2.2) ≠ [] := by
      rw [check_schedule_stable]
      exact h
    obtain ⟨ihlen, ihtake⟩ := ih (schedule_service v r.1 r.2.1 r.2.2) hne
    have hrun : schedule_service_runs v (r :: rs)
        = schedule_service_runs (schedule_service v r.1 r.2.1 r.2.2) rs := rfl
    constructor
    · rw [hrun, ihlen, hlen1, List.length_cons]
      omega
    · rw [hrun]
      have hmin : v.maintenance_history.length
          = min v.maintenance_history.length
              (schedule_service v r.1 r.2.1 r.2.2).maintenance_history.length := by
        rw [hlen1]
        omega
      calc (schedule_service_runs (schedule_service v r.1 r.2.1 r.2.2) rs).maintenance_history.take
              v.maintenance_history.length
          = ((schedule_service_runs (schedule_service v r.1 r.2.1 r.2.2) rs).maintenance_history.take
              (schedule_service v r.1 r.2.1 r.2.2).maintenance_history.length).take
              v.maintenance_history.length := by
            rw [List.take_take, ← hmin]
        _ = ((schedule_service v r.1 r.2.1 r.2.2).maintenance_history).take
              v.maintenance_history.length := by rw [ihtake]
        _ = v.maintenance_history := by
            rw [hstep, List.take_left]

/-- C5 witness: two scheduling runs on demoVehicle (whose due list is
non-empty) grow the history from 0 to 2 entries and preserve the (empty)
prefix. -/
theorem schedule_append_only_witness :
    (schedule_service_runs demoVehicle
        [(0, "2026-10-14", EmailOutcome.sent),
         (0, "2026-10-15", EmailOutcome.failed)]).maintenance_history.length
      = demoVehicle.maintenance_history.length + 2 ∧
    (schedule_service_runs demoVehicle
        [(0, "2026-10-14", EmailOutcome.sent),
         (0, "2026-10-15", EmailOutcome.failed)]).maintenance_history.take
        demoVehicle.maintenance_history.length
      = demoVehicle.maintenance_history :=
  schedule_append_only demoVehicle
    [(0, "2026-10-14", EmailOutcome.sent), (0, "2026-10-15", EmailOutcome.failed)]
    (by decide)

/-- C6: when a service and a date were selected, exactly one history entry is
appended, with status "scheduled" and the mileage at call time, and the
result does not depend on the email outcome; when the due list is empty no
entry is written. -/
theorem schedule_history_atomic (v : Vehicle) (c : Nat) (d : String)
    (e e₂ : EmailOutcome) :
    schedule_service v c d e = schedule_service v c d e₂ ∧
    (check_maintenance_due v = [] → schedule_service v c d e = v) ∧
    (check_maintenance_due v ≠ [] →
      (schedule_service v c d e).maintenance_history.length
        = v.maintenance_history.length + 1 ∧
      (schedule_service v c d e).maintenance_history.take
          v.maintenance_history.length
        = v.maintenance_history ∧
      ∀ entry ∈ (schedule_service v c d e).maintenance_history.drop
          v.maintenance_history.length,
        entry.status = "scheduled" ∧ entry.mileage = v.mileage) := by
  refine ⟨rfl, fun h => ?_, fun h => ?_⟩
  · unfold schedule_service
    dsimp only
    rw [if_pos (by simpa [List.isEmpty_iff] using h)]
  · have hstep := schedule_step_history v c d e h
    refine ⟨?_, ?_, ?_⟩
    · rw [hstep, List.length_append, List.length_singleton]
    · rw [hstep, List.take_left]
    · intro entry hentry
      rw [hstep, List.drop_left] at hentry
      rcases List.mem_singleton.mp hentry with rfl
      exact ⟨rfl, rfl⟩

/-- C6 witness: scheduling the due-soon oil change of demoVehicle appends
one entry whether the email send fails or succeeds, and the two outcomes
leave identical records. -/
theorem schedule_history_atomic_witness :
    schedule_service demoVehicle 0 "2026-10-14" EmailOutcome.failed
      = schedule_service demoVehicle 0 "2026-10-14" EmailOutcome.sent ∧
    (schedule_service demoVehicle 0 "2026-10-14" EmailOutcome.failed).maintenance_history.length
      = demoVehicle.maintenance_history.length + 1 ∧
    (schedule_service demoVehicle 0 "2026-10-14" EmailOutcome.failed).maintenance_history.take
        demoVehicle.maintenance_history.length
      = demoVehicle.maintenance_history :=
  ⟨(schedule_history_atomic demoVehicle 0 "2026-10-14" EmailOutcome.failed
      EmailOutcome.sent).1,
   ((schedule_history_atomic demoVehicle 0 "2026-10-14" EmailOutcome.failed
      EmailOutcome.sent).2.2 (by decide)).1,
   ((schedule_history_atomic demoVehicle 0 "2026-10-14" EmailOutcome.failed
      EmailOutcome.sent).2.2 (by decide)).2.1⟩

/-- C9: the battery classifier maps voltage v to Good when v ≥ 12.4, Fair
when 12.0 ≤ v < 12.4 and Poor when v < 12.0, and after an accepted update
the low-battery warning is raised exactly when the stored voltage is below
12.0. -/
theorem battery_classifier_thresholds :
    (∀ q : Rat, 12.4 ≤ q → battery_status q = "Good") ∧
    (∀ q : Rat, 12.0 ≤ q → q < 12.4 → battery_status q = "Fair") ∧
    (∀ q : Rat, q < 12.0 → battery_status q = "Poor") ∧
    (∀ (v : Vehicle) (m : Int) (b : Rat),
      (low_battery_warning (update_mileage_obd2 v m b true) = true ↔ b < 12.0)) ∧
    (∀ (v : Vehicle) (n : Int),
      (low_battery_warning (update_mileage_manual v n) = true
        ↔ v.battery_voltage < 12.0)) := by
  refine ⟨fun q h => ?_, fun q h1 h2 => ?_, fun q h => ?_, fun v m b => ?_, fun v n => ?_⟩
  · unfold battery_status
    rw [if_pos h]
  · unfold battery_status
    rw [if_neg (by exact not_le.mpr h2), if_pos h1]
  · unfold battery_status
    rw [if_neg (by exact not_le.mpr (lt_trans h (by norm_num))),
      if_neg (by exact not_le.mpr h)]
  · unfold low_battery_warning update_mileage_obd2
    simp
  · unfold low_battery_warning update_mileage_manual
    split_ifs <;> simp

/-- C9 witness: voltage exactly 12.4 is Good, 12.39 is Fair, 11.99 is Poor,
and an accepted OBD2 update storing 11.5 volts raises the warning. -/
theorem battery_classifier_thresholds_witness :
    battery_status 12.4 = "Good" ∧ battery_status 12.39 = "Fair" ∧
    battery_status 11.99 = "Poor" ∧
    low_battery_warning (update_mileage_obd2 demoVehicle 60000 11.5 true) = true :=
  ⟨battery_classifier_thresholds.1 12.4 (by norm_num),
   battery_classifier_thresholds.2.1 12.39 (by norm_num) (by norm_num),
   battery_classifier_thresholds.2.2.1 11.99 (by norm_num),
   (battery_classifier_thresholds.2.2.2.1 demoVehicle 60000 11.5).mpr (by norm_num)⟩

end CarButler
